import Mathlib

/-!
Verification development for the `msmeetsai` business-rule system.

This file shallowly embeds the core of the repository in Lean:

* `src/execution/engine.py` — `DefaultActionExecutor`, `BusinessRuleExecutionEngine`
  (`create_execution_plan`, `execute_plan`, `_execute_single_rule`,
  `get_execution_summary`);
* `src/agents/business_rule_agent.py` — `BusinessRuleAgent.analyze_scenario` and its
  helper steps;
* `src/api/services.py` — `AgenticSystemService.analyze_and_execute`.

Modelling conventions:

* Python dict values are modelled by the inductive type `JValue`; dictionaries are
  association lists with distinct keys (`Dict`).
* Python numbers: `int` is `Int`, `float` is modelled as a rational number `ℚ`
  (exact arithmetic; every concrete constant appearing in the source, such as `0.8`
  or `1.5`, is a dyadic rational and hence exactly representable in IEEE floats, so
  no verdict below depends on rounding).
* Python exceptions are modelled with `Except String`; a function that can raise
  returns `Except String α`, a function that catches internally returns plain `α`.
* Wall-clock values (`datetime.now()`) are passed in as explicit parameters
  (`now`, a preformatted string); `start_time` and `end_time` fields, which carry
  no logic beyond subtraction, are omitted from the embedded records.
* Calls into external collaborators (vector store, LLM) are modelled as oracle
  functions collected in an environment record; the collaborators themselves catch
  their own exceptions in the source (`query_rules`, `llm_service.*` all wrap their
  bodies in `try/except`), so the oracles are total functions whose result encodes
  either a parsed payload or an error payload.
-/

/-- A Python value as it appears in the dictionaries handled by this code base:
strings, ints, floats (as exact rationals), booleans, `None`, lists and nested
dictionaries. -/
inductive JValue where
  | str (s : String)
  | int (n : Int)
  | rat (q : ℚ)
  | bool (b : Bool)
  | null
  | arr (elems : List JValue)
  | dict (fields : List (String × JValue))

/-- A Python dictionary with string keys, as an association list. -/
abbrev Dict := List (String × JValue)

/-- `d.get(k, v)` on a Python dict: value of the first binding of `k`, else `v`. -/
def dictGet (d : Dict) (k : String) (v : JValue) : JValue :=
  ((d.find? (fun p => p.1 == k)).map (fun p => p.2)).getD v

/-- Membership test `k in d` on a Python dict. -/
def dictHas (d : Dict) (k : String) : Bool :=
  (d.find? (fun p => p.1 == k)).isSome

/-- Python truthiness of a value (`bool(v)`). -/
def pyTruthy : JValue → Bool
  | .str s => !(s == "")
  | .int n => !(n == 0)
  | .rat q => !(q == 0)
  | .bool b => b
  | .null => false
  | .arr l => !l.isEmpty
  | .dict d => !d.isEmpty

/-- Rendering of a value inside an f-string (`str(v)`). Container values are
rendered abstractly; no theorem below depends on the text of a log line. -/
def pyStr : JValue → String
  | .str s => s
  | .int n => toString n
  | .rat q => toString q
  | .bool b => if b then "True" else "False"
  | .null => "None"
  | .arr _ => "[...]"
  | .dict _ => "{...}"

/-- A string repeated `n` times (`s * n` in Python, empty for `n ≤ 0`). -/
def strRepeat (s : String) (n : Int) : String :=
  String.join (List.replicate n.toNat s)

/-- Numeric view of a value for arithmetic: Python treats `bool` as an `int`.
Returns the value as an exact rational together with a flag telling whether it
was an `int`-like value (so that `int * int` stays an `int`). -/
def pyNum : JValue → Option (ℚ × Bool)
  | .int n => some ((n : ℚ), true)
  | .rat q => some (q, false)
  | .bool b => some (if b then 1 else 0, true)
  | _ => none

/-- Python multiplication `a * b` restricted to the value shapes reachable in this
code base: numbers, `str * int`, `list * int`; anything else raises `TypeError`
(in Python, e.g. `None * 2` or `{} * 2` raise). -/
def pyMul (a b : JValue) : Except String JValue :=
  match pyNum a, pyNum b with
  | some (qa, ia), some (qb, ib) =>
      if ia && ib then .ok (.int ((qa * qb).num)) else .ok (.rat (qa * qb))
  | _, _ =>
      match a, b with
      | .str s, .int n => .ok (.str (strRepeat s n))
      | .int n, .str s => .ok (.str (strRepeat s n))
      | .arr l, .int n => .ok (.arr (List.flatten (List.replicate n.toNat l)))
      | .int n, .arr l => .ok (.arr (List.flatten (List.replicate n.toNat l)))
      | _, _ => .error "TypeError: unsupported operand type(s) for *"

/-- Python comparison `a > b` for numbers and strings; mixed or non-ordered
shapes raise `TypeError` (as in Python 3). -/
def pyGt (a b : JValue) : Except String Bool :=
  match pyNum a, pyNum b with
  | some (qa, _), some (qb, _) => .ok (decide (qb < qa))
  | _, _ =>
      match a, b with
      | .str sa, .str sb => .ok (decide (sb < sa))
      | _, _ => .error "TypeError: unsupported operand type(s) for >"

/-- Python `int(v)`: identity on ints and bools, truncation toward zero on
floats, decimal parse on strings (`ValueError` when unparsable), `TypeError`
otherwise. -/
def pyInt (v : JValue) : Except String JValue :=
  match v with
  | .int n => .ok (.int n)
  | .bool b => .ok (.int (if b then 1 else 0))
  | .rat q => .ok (.int (Int.tdiv q.num (q.den : Int)))
  | .str s =>
      match s.toInt? with
      | some n => .ok (.int n)
      | none => .error ("ValueError: invalid literal for int: " ++ s)
  | _ => .error "TypeError: int() argument must be a number or a string"

/-! ## `src/execution/engine.py` — action handlers (`DefaultActionExecutor._*`)

Each handler takes `parameters` and `context` dicts and returns a result dict;
`now` stands for `datetime.now().isoformat()`.  A handler returns
`Except String Dict` because, on adversarial inputs, the arithmetic inside
`_emergency_reorder`, `_increase_reorder_quantity` and
`_route_to_billing_specialist` can raise a Python `TypeError`/`ValueError`. -/

/-- Handler `_approve_basic_review`. -/
def approve_basic_review (now : String) (_parameters _context : Dict) :
    Except String Dict :=
  .ok [("success", .bool true),
       ("action_taken", .str "loan_approved_for_basic_review"),
       ("next_steps", .arr [.str "Basic underwriting review", .str "Document verification"]),
       ("approval_level", .str "basic"),
       ("timestamp", .str now)]

/-- Handler `_require_manual_review`. -/
def require_manual_review (now : String) (parameters _context : Dict) :
    Except String Dict :=
  .ok [("success", .bool true),
       ("action_taken", .str "manual_review_required"),
       ("assigned_to", .str "senior_underwriter"),
       ("priority", .str "high"),
       ("review_criteria", .dict parameters),
       ("timestamp", .str now)]

/-- Handler `_instant_approve`. -/
def instant_approve (now : String) (_parameters context : Dict) :
    Except String Dict :=
  .ok [("success", .bool true),
       ("action_taken", .str "instant_approval"),
       ("approval_amount", dictGet context "loan_amount" (.int 0)),
       ("approval_rate", dictGet context "interest_rate" (.str "TBD")),
       ("timestamp", .str now)]

/-- Handler `_require_collateral`. -/
def require_collateral (now : String) (_parameters _context : Dict) :
    Except String Dict :=
  .ok [("success", .bool true),
       ("action_taken", .str "collateral_required"),
       ("collateral_percentage", .int 80),
       ("acceptable_collateral_types",
        .arr [.str "real_estate", .str "securities", .str "cash_deposit"]),
       ("timestamp", .str now)]

/-- Handler `_deny_access`. -/
def deny_access (now : String) (parameters _context : Dict) :
    Except String Dict :=
  .ok [("success", .bool true),
       ("action_taken", .str "access_denied"),
       ("reason", .str "Insufficient privileges for financial data access"),
       ("required_roles", dictGet parameters "authorized_roles" (.arr [])),
       ("timestamp", .str now)]

/-- Handler `_generate_low_stock_alert`. -/
def generate_low_stock_alert (now : String) (_parameters context : Dict) :
    Except String Dict :=
  .ok [("success", .bool true),
       ("action_taken", .str "low_stock_alert_generated"),
       ("alert_sent_to", .arr [.str "inventory_manager", .str "procurement_team"]),
       ("current_stock", dictGet context "current_stock" (.int 0)),
       ("minimum_stock", dictGet context "minimum_stock_level" (.int 0)),
       ("timestamp", .str now)]

/-- Handler `_emergency_reorder`: `reorder_quantity = minimum_stock_level * 2`. -/
def emergency_reorder (now : String) (_parameters context : Dict) :
    Except String Dict := do
  let reorder_quantity ← pyMul (dictGet context "minimum_stock_level" (.int 100)) (.int 2)
  .ok [("success", .bool true),
       ("action_taken", .str "emergency_reorder_initiated"),
       ("reorder_quantity", reorder_quantity),
       ("supplier", .str "primary_supplier"),
       ("expected_delivery", .str "24-48 hours"),
       ("timestamp", .str now)]

/-- Handler `_block_reorder`. -/
def block_reorder (now : String) (_parameters context : Dict) :
    Except String Dict :=
  .ok [("success", .bool true),
       ("action_taken", .str "reorder_blocked"),
       ("reason", .str "Current stock exceeds maximum threshold"),
       ("current_stock", dictGet context "current_stock" (.int 0)),
       ("maximum_stock", dictGet context "maximum_stock_level" (.int 0)),
       ("timestamp", .str now)]

/-- Handler `_increase_reorder_quantity`:
`new_quantity = int(base_quantity * multiplier)` with defaults `100` and `1.5`. -/
def increase_reorder_quantity (now : String) (parameters context : Dict) :
    Except String Dict := do
  let base_quantity := dictGet context "normal_reorder_quantity" (.int 100)
  let multiplier := dictGet parameters "seasonal_multiplier" (.rat (3 / 2))
  let product ← pyMul base_quantity multiplier
  let new_quantity ← pyInt product
  .ok [("success", .bool true),
       ("action_taken", .str "reorder_quantity_increased"),
       ("original_quantity", base_quantity),
       ("new_quantity", new_quantity),
       ("multiplier", multiplier),
       ("reason", .str "Seasonal demand adjustment"),
       ("timestamp", .str now)]

/-- Handler `_mark_for_clearance`. -/
def mark_for_clearance (now : String) (_parameters context : Dict) :
    Except String Dict :=
  .ok [("success", .bool true),
       ("action_taken", .str "marked_for_clearance"),
       ("clearance_discount", .str "50%"),
       ("expiry_date", dictGet context "expiry_date" .null),
       ("notification_sent", .str "sales_team"),
       ("timestamp", .str now)]

/-- Handler `_schedule_data_deletion`. -/
def schedule_data_deletion (now : String) (_parameters context : Dict) :
    Except String Dict :=
  .ok [("success", .bool true),
       ("action_taken", .str "data_deletion_scheduled"),
       ("scheduled_date", .str "30 days from now"),
       ("data_categories", dictGet context "data_type" (.str "personal")),
       ("compliance_regulation", .str "GDPR"),
       ("timestamp", .str now)]

/-- Handler `_request_consent_renewal`. -/
def request_consent_renewal (now : String) (_parameters context : Dict) :
    Except String Dict :=
  .ok [("success", .bool true),
       ("action_taken", .str "consent_renewal_requested"),
       ("notification_sent", dictGet context "user_email" (.str "user")),
       ("consent_type", .str "data_processing"),
       ("deadline", .str "30 days"),
       ("timestamp", .str now)]

/-- Handler `_execute_data_deletion`. -/
def execute_data_deletion (now : String) (_parameters _context : Dict) :
    Except String Dict :=
  .ok [("success", .bool true),
       ("action_taken", .str "data_deleted"),
       ("deletion_scope", .str "all_personal_data"),
       ("verification_required", .bool true),
       ("compliance_log_updated", .bool true),
       ("timestamp", .str now)]

/-- Handler `_enforce_encryption`. -/
def enforce_encryption (now : String) (parameters _context : Dict) :
    Except String Dict :=
  .ok [("success", .bool true),
       ("action_taken", .str "encryption_enforced"),
       ("encryption_standard",
        dictGet parameters "required_encryption_standard" (.str "AES256")),
       ("data_encrypted", .bool true),
       ("compliance_status", .str "PCI-DSS compliant"),
       ("timestamp", .str now)]

/-- Handler `_route_to_senior_agent`. -/
def route_to_senior_agent (now : String) (_parameters context : Dict) :
    Except String Dict :=
  .ok [("success", .bool true),
       ("action_taken", .str "routed_to_senior_agent"),
       ("agent_type", .str "senior_support"),
       ("priority", .str "high"),
       ("customer_tier", dictGet context "customer_tier" (.str "VIP")),
       ("timestamp", .str now)]

/-- Handler `_escalate_to_technical_team`. -/
def escalate_to_technical_team (now : String) (_parameters context : Dict) :
    Except String Dict :=
  .ok [("success", .bool true),
       ("action_taken", .str "escalated_to_technical_team"),
       ("team", .str "technical_support"),
       ("complexity_score", dictGet context "complexity_score" (.int 8)),
       ("issue_category", .str "technical"),
       ("timestamp", .str now)]

/-- Handler `_route_to_global_team`: both `local_time` and `timestamp` are
`datetime.now().isoformat()`. -/
def route_to_global_team (now : String) (_parameters _context : Dict) :
    Except String Dict :=
  .ok [("success", .bool true),
       ("action_taken", .str "routed_to_global_team"),
       ("team_location", .str "asia_pacific"),
       ("reason", .str "after_hours_support"),
       ("local_time", .str now),
       ("timestamp", .str now)]

/-- Handler `_route_to_billing_specialist`:
`priority = "high" if context.get("dispute_amount", 0) > 1000 else "normal"`. -/
def route_to_billing_specialist (now : String) (_parameters context : Dict) :
    Except String Dict := do
  let amount := dictGet context "dispute_amount" (.int 0)
  let isHigh ← pyGt amount (.int 1000)
  .ok [("success", .bool true),
       ("action_taken", .str "routed_to_billing_specialist"),
       ("specialist_team", .str "billing_disputes"),
       ("dispute_amount", amount),
       ("priority", .str (if isHigh then "high" else "normal")),
       ("timestamp", .str now)]

/-! ## `DefaultActionExecutor` -/

/-- The `self.supported_actions` registry built in `DefaultActionExecutor.__init__`,
in insertion order. -/
def supported_actions (now : String) :
    List (String × (Dict → Dict → Except String Dict)) :=
  [("approve_basic_review", approve_basic_review now),
   ("require_manual_review", require_manual_review now),
   ("instant_approve", instant_approve now),
   ("require_collateral", require_collateral now),
   ("deny_access", deny_access now),
   ("generate_low_stock_alert", generate_low_stock_alert now),
   ("emergency_reorder", emergency_reorder now),
   ("block_reorder", block_reorder now),
   ("increase_reorder_quantity", increase_reorder_quantity now),
   ("mark_for_clearance", mark_for_clearance now),
   ("schedule_data_deletion", schedule_data_deletion now),
   ("request_consent_renewal", request_consent_renewal now),
   ("execute_data_deletion", execute_data_deletion now),
   ("enforce_encryption", enforce_encryption now),
   ("route_to_senior_agent", route_to_senior_agent now),
   ("escalate_to_technical_team", escalate_to_technical_team now),
   ("route_to_global_team", route_to_global_team now),
   ("route_to_billing_specialist", route_to_billing_specialist now)]

/-- The key list `list(self.supported_actions.keys())`. -/
def supportedActionNames (now : String) : List String :=
  (supported_actions now).map (fun p => p.1)

/-- `DefaultActionExecutor.execute`: unsupported-action dict for unregistered names,
otherwise the handler result, with any handler exception caught and converted into
an error dict (`tb` stands for `traceback.format_exc()` at the raise site). -/
def defaultExecute (now tb : String) (action : String) (parameters context : Dict) :
    Dict :=
  match ((supported_actions now).find? (fun p => p.1 == action)).map (fun p => p.2) with
  | none =>
      [("success", .bool false),
       ("error", .str ("Unsupported action: " ++ action)),
       ("supported_actions", .arr ((supportedActionNames now).map .str))]
  | some handler =>
      match handler parameters context with
      | .ok result => result
      | .error e =>
          [("success", .bool false),
           ("error", .str ("Error executing " ++ action ++ ": " ++ e)),
           ("traceback", .str tb)]

/-! ## Execution engine data model -/

/-- `ExecutionStatus` enum from `src/execution/engine.py`. -/
inductive ExecutionStatus where
  | pending
  | running
  | completed
  | failed
  | skipped
deriving DecidableEq

/-- The `.value` string of an `ExecutionStatus` member. -/
def ExecutionStatus.value : ExecutionStatus → String
  | .pending => "pending"
  | .running => "running"
  | .completed => "completed"
  | .failed => "failed"
  | .skipped => "skipped"

/-- `ExecutionResult` dataclass (wall-clock `start_time`/`end_time` omitted;
`end_time` is always stamped in the `finally` block of the source, so `duration`
carries no extra logic). `error_message` is `Option JValue` because the source
stores either `str(e)` or the raw `output.get("error", ...)` value. -/
structure ExecutionResult where
  rule_id : String
  rule_name : String
  status : ExecutionStatus
  output : Dict
  error_message : Option JValue
  execution_logs : List String

/-- A rule dict as consumed by the execution engine: the engine reads exactly the
keys `id`, `name`, `action`, `parameters` and `priority` (the rules built by the
agent and the spec data model always carry all five). -/
structure EngineRule where
  id : String
  name : String
  action : String
  parameters : Dict
  priority : Int

/-- `ExecutionPlan` dataclass (wall-clock fields omitted). -/
structure ExecutionPlan where
  plan_id : String
  scenario : String
  rules : List EngineRule
  context : Dict
  execution_results : List ExecutionResult
  overall_status : ExecutionStatus

/-- The `ActionExecutor` capability: `validate_parameters` and `execute`, either of
which may raise (the engine wraps both calls in one `try`). -/
structure ActionExecutor where
  validate_parameters : String → Dict → Except String Bool
  execute : String → Dict → Dict → Except String Dict

/-- The `ActionExecutor` wrapping a `DefaultActionExecutor`: `validate_parameters`
is `isinstance(parameters, dict)` (always true in this embedding, where the
argument is a `Dict` by type) and `execute` never raises because
`DefaultActionExecutor.execute` catches handler exceptions internally. -/
def defaultActionExecutor (now tb : String) : ActionExecutor where
  validate_parameters := fun _ _ => .ok true
  execute := fun action parameters context => .ok (defaultExecute now tb action parameters context)

/-- `BusinessRuleExecutionEngine` state: the injected executor and
`self.execution_history`. -/
structure Engine where
  action_executor : ActionExecutor
  execution_history : List ExecutionPlan

/-- `BusinessRuleExecutionEngine.__init__` with an explicit executor. -/
def mkEngine (ex : ActionExecutor) : Engine :=
  { action_executor := ex, execution_history := [] }

/-- The f-string `plan_{timestamp}_{len(self.execution_history)}`. -/
def mkPlanId (now : String) (historyLen : Nat) : String :=
  "plan_" ++ now ++ "_" ++ Nat.repr historyLen

/-- `BusinessRuleExecutionEngine.create_execution_plan`, in state-passing style:
returns the fresh plan and the (unchanged) engine state. `now` stands for
`datetime.now().strftime(Y_m_d_H_M_S)` at the call. -/
def create_execution_plan (e : Engine) (now scenario : String)
    (rules : List EngineRule) (context : Dict) : ExecutionPlan × Engine :=
  ({ plan_id := mkPlanId now e.execution_history.length,
     scenario := scenario,
     rules := rules,
     context := context,
     execution_results := [],
     overall_status := .pending }, e)

/-- `BusinessRuleExecutionEngine._execute_single_rule`.  The source wraps the
validation call and the dispatch in one `try/except Exception`; a raise from
either is converted into a FAILED result with `str(e)` as `error_message`. -/
def execute_single_rule (ex : ActionExecutor) (rule : EngineRule) (context : Dict) :
    ExecutionResult :=
  match ex.validate_parameters rule.action rule.parameters with
  | .error e =>
      { rule_id := rule.id, rule_name := rule.name, status := .failed, output := [],
        error_message := some (.str e),
        execution_logs := ["Exception during execution: " ++ e] }
  | .ok false =>
      { rule_id := rule.id, rule_name := rule.name, status := .failed, output := [],
        error_message := some (.str "Parameter validation failed"),
        execution_logs := [] }
  | .ok true =>
      let startLog := "Starting execution of rule " ++ rule.id ++ ": " ++ rule.name
      match ex.execute rule.action rule.parameters context with
      | .error e =>
          { rule_id := rule.id, rule_name := rule.name, status := .failed, output := [],
            error_message := some (.str e),
            execution_logs := [startLog, "Exception during execution: " ++ e] }
      | .ok output =>
          if pyTruthy (dictGet output "success" (.bool false)) then
            { rule_id := rule.id, rule_name := rule.name, status := .completed,
              output := output, error_message := none,
              execution_logs :=
                [startLog,
                 "Rule executed successfully: " ++
                   pyStr (dictGet output "action_taken" (.str "Unknown"))] }
          else
            let em := dictGet output "error" (.str "Unknown error")
            { rule_id := rule.id, rule_name := rule.name, status := .failed,
              output := output, error_message := some em,
              execution_logs := [startLog, "Rule execution failed: " ++ pyStr em] }

/-- A FAILED result is *critical* when some rule of the plan with the same `id`
has `priority >= 3` (this is how line 378 of `engine.py` resolves which rule a
result belongs to). -/
def criticalFor (rules : List EngineRule) (r : ExecutionResult) : Bool :=
  rules.any (fun ru => ru.id == r.rule_id && decide (3 ≤ ru.priority))

/-- Lines 375 to 386 of `engine.py`: COMPLETED when no FAILED result exists;
FAILED when some FAILED result id-matches a critical rule; COMPLETED (partial
success) otherwise. -/
def aggregateStatus (rules : List EngineRule) (results : List ExecutionResult) :
    ExecutionStatus :=
  let failed_results := results.filter (fun r => r.status == ExecutionStatus.failed)
  if failed_results.isEmpty then ExecutionStatus.completed
  else if failed_results.any (criticalFor rules) then ExecutionStatus.failed
  else ExecutionStatus.completed

/-- `BusinessRuleExecutionEngine.execute_plan`: run every rule in order, append
each result to `plan.execution_results`, aggregate the overall status, then
append the finished plan to the history (the append sits in a `finally` block).
Nothing inside the loop raises in this embedding, since `_execute_single_rule`
catches and the rule record is total. -/
def execute_plan (e : Engine) (plan : ExecutionPlan) : ExecutionPlan × Engine :=
  let results :=
    plan.execution_results ++
      plan.rules.map (fun r => execute_single_rule e.action_executor r plan.context)
  let finished := { plan with execution_results := results,
                              overall_status := aggregateStatus plan.rules results }
  (finished, { e with execution_history := e.execution_history ++ [finished] })

/-- Run a sequence of `execute_plan` calls against one engine instance. -/
def runPlans (e : Engine) (plans : List ExecutionPlan) : Engine :=
  plans.foldl (fun acc p => (execute_plan acc p).2) e

/-! ## `src/agents/business_rule_agent.py` — decision pipeline

The external collaborators (vector search, catalog lookup, LLM calls) are modelled
as oracle functions in an `AgentEnv`.  In the source each collaborator call site is
itself wrapped in `try/except` inside the collaborator (`query_rules`,
`llm_service.analyze_scenario`, `llm_service.reason_about_rules`,
`llm_service.generate_explanation` all catch and return a degraded value;
`get_rule_by_id` is a dict lookup), so the oracles are total; an LLM failure is
encoded in the oracle result (an error payload), not as a raise. -/

/-- The metadata payload stored with each indexed rule (the fields of
`rule.to_dict()` that `_analyze_with_llm` reads back). -/
structure RuleMeta where
  name : String
  description : String
  domain : String
  category : String
  condition : String
  action : String
  priority : Int
  parameters : Dict

/-- `SearchResult` dataclass from `src/rag/qdrant_client.py`. -/
structure SearchResult where
  rule_id : String
  score : ℚ
  content : String
  metadata : RuleMeta

/-- `BusinessRule` dataclass from `src/business_rules/manager.py`. -/
structure BusinessRule where
  id : String
  name : String
  description : String
  domain : String
  category : String
  condition : String
  action : String
  priority : Int
  parameters : Dict
  metadata : Dict

/-- One entry of the `rules_data` list `_analyze_with_llm` sends to the LLM. -/
structure RuleData where
  id : String
  name : String
  description : String
  domain : String
  category : String
  condition : String
  action : String
  priority : Int
  parameters : Dict
  similarity_score : ℚ

/-- One entry of the parsed `applicable_rules` list returned by the analysis LLM
call.  Every field is optional: the payload is parsed JSON whose shape is not
validated anywhere (`rule_ref["rule_id"]` raises `KeyError` when absent, the other
fields are read with `.get` defaults). -/
structure RuleRef where
  rule_id : Option String
  confidence : Option ℚ
  reasoning : Option String

/-- One entry of the parsed `executable_rules` list returned by the
order-reasoning LLM call. -/
structure ExecRuleRef where
  rule_id : Option String
  execution_order : Option Int
  condition_met : Option Bool
  expected_outcome : Option String

/-- The parsed analysis payload (`_parse_analysis_response` output, or the
degraded dict built by `_analyze_with_llm`). -/
structure AnalysisResult where
  applicable_rules : Option (List RuleRef)
  overall_assessment : Option String
  recommended_actions : Option (List String)

/-- The parsed order-reasoning payload; an LLM error collapses to a dict without
an `executable_rules` key, hence `none`. -/
structure ReasoningResult where
  executable_rules : Option (List ExecRuleRef)

/-- A fully resolved rule dict as built in `_determine_executable_rules`
(lines 238 to 248): catalog fields plus the per-request `confidence` and
`reasoning`, later destructively extended with `execution_order` and
`expected_outcome` (hence those two are optional: absent until the update). -/
structure FullRule where
  id : String
  name : String
  description : String
  condition : String
  action : String
  priority : Int
  parameters : Dict
  confidence : ℚ
  reasoning : String
  execution_order : Option Int
  expected_outcome : Option String

/-- One step of the decision execution plan built in `_create_decision`. -/
structure PlanStep where
  step : Int
  rule_id : String
  rule_name : String
  action : String
  expected_outcome : String
  parameters : Dict

/-- `AgentDecision` dataclass. -/
structure AgentDecision where
  scenario : String
  applicable_rules : List FullRule
  decision_outcome : String
  confidence : ℚ
  reasoning : String
  execution_plan : List PlanStep
  metadata : Dict

/-- Oracle environment for one `BusinessRuleAgent`: its configured threshold and
the external collaborators it calls. -/
structure AgentEnv where
  confidence_threshold : ℚ
  query_rules : String → Nat → Option String → Option String → ℚ → List SearchResult
  llm_analyze : String → List RuleData → Option Dict → Except String AnalysisResult
  get_rule_by_id : String → Option BusinessRule
  llm_reason : List FullRule → Dict → ReasoningResult
  llm_explain : List FullRule → String → Dict → String

/-- `scenario.lower()` (ASCII case folding, which covers every keyword tested). -/
def pyLower (s : String) : String :=
  String.mk (s.data.map Char.toLower)

/-- Char-list prefix test (structural, so that it evaluates inside the kernel). -/
def chPrefix : List Char → List Char → Bool
  | [], _ => true
  | _ :: _, [] => false
  | a :: as, b :: bs => a == b && chPrefix as bs

/-- Char-list infix test. -/
def chInfix (needle : List Char) : List Char → Bool
  | [] => chPrefix needle []
  | b :: bs => chPrefix needle (b :: bs) || chInfix needle bs

/-- Python substring containment `needle in hay`. -/
def pyInStr (needle hay : String) : Bool :=
  chInfix needle.data hay.data

/-- `BusinessRuleAgent._enhance_query`: scenario text, optional
`domain:`/`category:` hint tokens (skipped for falsy hints), then one topic tag
per keyword family that occurs in the lowercased scenario, joined with spaces. -/
def enhance_query (scenario : String) (domain_hint category_hint : Option String) :
    String :=
  let query_parts := [scenario]
  let query_parts := query_parts ++
    (if !(domain_hint.getD "" == "") then ["domain:" ++ domain_hint.getD ""] else [])
  let query_parts := query_parts ++
    (if !(category_hint.getD "" == "") then ["category:" ++ category_hint.getD ""] else [])
  let scenario_lower := pyLower scenario
  let query_parts := query_parts ++
    (if ["loan", "credit", "finance", "money", "payment"].any
        (fun t => pyInStr t scenario_lower) then ["financial business rules"] else [])
  let query_parts := query_parts ++
    (if ["inventory", "stock", "product", "warehouse"].any
        (fun t => pyInStr t scenario_lower) then ["inventory management rules"] else [])
  let query_parts := query_parts ++
    (if ["customer", "support", "service", "ticket"].any
        (fun t => pyInStr t scenario_lower) then ["customer service rules"] else [])
  let query_parts := query_parts ++
    (if ["data", "privacy", "compliance", "gdpr", "regulation"].any
        (fun t => pyInStr t scenario_lower) then ["compliance regulatory rules"] else [])
  String.intercalate " " query_parts

/-- `BusinessRuleAgent._query_relevant_rules`: query the RAG service with the
enhanced query, `top_k = 10` and the relaxed threshold
`confidence_threshold * 0.8`.  The method catches its own exceptions and returns
`[]`; the oracle is total, so no raise can occur here. -/
def query_relevant_rules (env : AgentEnv) (scenario : String)
    (domain_hint category_hint : Option String) : List SearchResult :=
  env.query_rules (enhance_query scenario domain_hint category_hint) 10
    domain_hint category_hint (env.confidence_threshold * (4 / 5))

/-- The dict built for each retrieved rule in `_analyze_with_llm`. -/
def ruleDataOf (r : SearchResult) : RuleData :=
  { id := r.rule_id, name := r.metadata.name, description := r.metadata.description,
    domain := r.metadata.domain, category := r.metadata.category,
    condition := r.metadata.condition, action := r.metadata.action,
    priority := r.metadata.priority, parameters := r.metadata.parameters,
    similarity_score := r.score }

/-- `BusinessRuleAgent._analyze_with_llm`: send the converted rule dicts to the
LLM; a payload carrying an `error` key degrades to the fixed
empty-applicable-rules analysis. -/
def analyze_with_llm (env : AgentEnv) (scenario : String) (rules : List SearchResult)
    (context : Option Dict) : AnalysisResult :=
  match env.llm_analyze scenario (rules.map ruleDataOf) context with
  | .error _ =>
      { applicable_rules := some [], overall_assessment := some "Analysis failed",
        recommended_actions := some [] }
  | .ok analysis => analysis

/-- Message of the `KeyError` raised by `rule_ref["rule_id"]` /
`exec_rule["rule_id"]` on a payload entry without that key. -/
def keyErrorRuleId : String := "KeyError: rule_id"

/-- Lines 233 to 248 of `business_rule_agent.py`: resolve each high-confidence
reference to its full catalog rule (`rule_ref["rule_id"]` raises on a missing
key; an id absent from the catalog is dropped silently). -/
def buildFullRules (env : AgentEnv) (refs : List RuleRef) :
    Except String (List FullRule) :=
  refs.foldlM (fun acc ref =>
    match ref.rule_id with
    | none => Except.error keyErrorRuleId
    | some rid =>
      match env.get_rule_by_id rid with
      | some fr =>
          pure (acc ++ [{ id := fr.id, name := fr.name, description := fr.description,
                          condition := fr.condition, action := fr.action,
                          priority := fr.priority, parameters := fr.parameters,
                          confidence := ref.confidence.getD 0,
                          reasoning := ref.reasoning.getD "",
                          execution_order := none, expected_outcome := none }])
      | none => pure acc) []

/-- The merge loop of `_determine_executable_rules` (lines 256 to 269), first
pass: walk the reasoning output in order, keep each entry whose `condition_met`
is truthy and whose `rule_id` matches some resolved rule
(`exec_rule["rule_id"]` raises on a missing key). -/
def collectKept (execRules : List ExecRuleRef) (fullRules : List FullRule) :
    Except String (List (String × ExecRuleRef)) :=
  execRules.foldlM (fun acc er =>
    if er.condition_met.getD false then
      match er.rule_id with
      | none => Except.error keyErrorRuleId
      | some rid =>
        match fullRules.find? (fun r => r.id == rid) with
        | some _ => pure (acc ++ [(rid, er)])
        | none => pure acc
    else pure acc) []

/-- `full_rule.update({execution_order, expected_outcome})` applied to one rule. -/
def applyOrderUpdate (fr : FullRule) (er : ExecRuleRef) : FullRule :=
  { fr with execution_order := some (er.execution_order.getD 0),
            expected_outcome := some (er.expected_outcome.getD "") }

/-- The merge loop, second pass.  In the source, `final_rules` holds *references*
to the (first-matching) dicts of `full_rules`, and each `full_rule.update(...)`
mutates that shared dict; since the sort runs after the whole loop, each
occurrence observes the values written by the LAST kept entry with the same
`rule_id`.  This definition reproduces that aliasing in a pure setting. -/
def finalRules (fullRules : List FullRule) (kept : List (String × ExecRuleRef)) :
    List FullRule :=
  kept.filterMap (fun p =>
    ((kept.filter (fun q => q.1 == p.1)).getLast?).bind (fun q =>
      (fullRules.find? (fun r => r.id == p.1)).map (fun fr =>
        applyOrderUpdate fr q.2)))

/-- Sort key `x.get("execution_order", 0)` used at line 272. -/
def orderKey (fr : FullRule) : Int :=
  fr.execution_order.getD 0

/-- The comparison relation of the final `final_rules.sort(key=...)`. -/
def ruleLe (a b : FullRule) : Prop :=
  orderKey a ≤ orderKey b

instance : DecidableRel ruleLe :=
  fun a b => Int.decLe (orderKey a) (orderKey b)

instance : IsTotal FullRule ruleLe :=
  ⟨fun a b => Int.le_total (orderKey a) (orderKey b)⟩

instance : IsTrans FullRule ruleLe :=
  ⟨fun _ _ _ h1 h2 => le_trans h1 h2⟩

/-- Lines 256 to 274 of `business_rule_agent.py`: merge the reasoning output
with the resolved rules and sort by `execution_order` (Python `list.sort` is a
stable sort; `List.insertionSort` with a `≤` comparison is the same stable
sort, and the list being sorted is in reasoning-output order). -/
def merge_and_sort (fullRules : List FullRule) (execRules : List ExecRuleRef) :
    Except String (List FullRule) := do
  let kept ← collectKept execRules fullRules
  pure (List.insertionSort ruleLe (finalRules fullRules kept))

/-- Reading of the same merge step as worded by the specification: drop the
rules whose condition is not met, then stable-sort the remainder by
`execution_order` with ties preserving RETRIEVAL order (the order of
`fullRules`).  Written only to be compared against `merge_and_sort`. -/
def merge_and_sort_spec (fullRules : List FullRule) (execRules : List ExecRuleRef) :
    Except String (List FullRule) := do
  let kept ← collectKept execRules fullRules
  pure (List.insertionSort ruleLe (fullRules.filterMap (fun fr =>
    ((kept.filter (fun q => q.1 == fr.id)).getLast?).map (fun q =>
      applyOrderUpdate fr q.2))))

/-- `BusinessRuleAgent._determine_executable_rules`: threshold filter, catalog
resolution, order reasoning, then the merge-and-sort step. -/
def determine_executable_rules (env : AgentEnv) (analysis : AnalysisResult)
    (context : Dict) : Except String (List FullRule) :=
  let applicable := analysis.applicable_rules.getD []
  let high_confidence := applicable.filter
    (fun r => decide (env.confidence_threshold ≤ r.confidence.getD 0))
  if high_confidence.isEmpty then pure []
  else do
    let full_rules ← buildFullRules env high_confidence
    let reasoning := env.llm_reason full_rules context
    merge_and_sort full_rules (reasoning.executable_rules.getD [])

/-- `BusinessRuleAgent._generate_explanation`. -/
def generate_explanation (env : AgentEnv) (executable : List FullRule)
    (context : Option Dict) : String :=
  if executable.isEmpty then
    "No applicable business rules were found for this scenario."
  else
    env.llm_explain executable
      (String.intercalate " and " (executable.map (fun r => r.action)))
      (context.getD [])

/-- `BusinessRuleAgent._create_decision`: overall confidence is the arithmetic
mean of the executable rules' reported confidences (`0.0` when none). -/
def create_decision (scenario : String) (executable : List FullRule)
    (analysis : AnalysisResult) (explanation : String) (context : Option Dict) :
    AgentDecision :=
  let overall_confidence : ℚ :=
    if executable.isEmpty then 0
    else (executable.map (fun r => r.confidence)).sum / (executable.length : ℚ)
  { scenario := scenario,
    applicable_rules := executable,
    decision_outcome :=
      if executable.isEmpty then "No rules to execute"
      else "Execute " ++ Nat.repr executable.length ++ " rule(s): " ++
        String.intercalate ", " (executable.map (fun r => r.action)),
    confidence := overall_confidence,
    reasoning := explanation,
    execution_plan := executable.enum.map (fun p =>
      { step := (p.1 : Int) + 1, rule_id := p.2.id, rule_name := p.2.name,
        action := p.2.action, expected_outcome := p.2.expected_outcome.getD "",
        parameters := p.2.parameters }),
    metadata :=
      [("analysis_timestamp", JValue.null),
       ("total_rules_considered", .int ((analysis.applicable_rules.getD []).length : Int)),
       ("rules_above_threshold", .int (executable.length : Int)),
       ("overall_assessment", .str (analysis.overall_assessment.getD "")),
       ("recommended_actions", .arr ((analysis.recommended_actions.getD []).map JValue.str)),
       ("context_provided", .bool context.isSome),
       ("agent_iterations", .int 0)] }

/-- `BusinessRuleAgent._create_no_rules_decision`. -/
def create_no_rules_decision (scenario : String) : AgentDecision :=
  { scenario := scenario,
    applicable_rules := [],
    decision_outcome := "No applicable business rules found",
    confidence := 0,
    reasoning := "The RAG system did not find any business rules relevant to this scenario. This could indicate that the scenario is outside the scope of current rule coverage, or the scenario description needs to be more specific.",
    execution_plan := [],
    metadata :=
      [("analysis_timestamp", JValue.null),
       ("total_rules_considered", .int 0),
       ("rules_above_threshold", .int 0),
       ("overall_assessment", .str "No rules found"),
       ("recommended_actions",
        .arr [.str "Review scenario description", .str "Check rule coverage",
              .str "Consider adding new rules"]),
       ("context_provided", .bool false),
       ("agent_iterations", .int 0)] }

/-- `BusinessRuleAgent._create_error_decision` (at this call site
`self.iteration_count` is the `0` assigned at the start of `analyze_scenario`). -/
def create_error_decision (scenario : String) (error_message : String) :
    AgentDecision :=
  { scenario := scenario,
    applicable_rules := [],
    decision_outcome := "Analysis failed: " ++ error_message,
    confidence := 0,
    reasoning := "An error occurred during analysis: " ++ error_message,
    execution_plan := [],
    metadata :=
      [("analysis_timestamp", JValue.null),
       ("error", .str error_message),
       ("total_rules_considered", .int 0),
       ("rules_above_threshold", .int 0),
       ("overall_assessment", .str "Error occurred"),
       ("recommended_actions",
        .arr [.str "Check system logs", .str "Verify system components"]),
       ("context_provided", .bool false),
       ("agent_iterations", .int 0)] }

/-- The body of the `try` block of `BusinessRuleAgent.analyze_scenario`
(steps 1 to 5); `Except.error` is a Python exception escaping to the
enclosing handler. -/
def analyze_scenarioE (env : AgentEnv) (scenario : String) (business_context : Option Dict)
    (domain_hint category_hint : Option String) : Except String AgentDecision := do
  let relevant_rules := query_relevant_rules env scenario domain_hint category_hint
  if relevant_rules.isEmpty then
    pure (create_no_rules_decision scenario)
  else do
    let analysis := analyze_with_llm env scenario relevant_rules business_context
    let executable ← determine_executable_rules env analysis (business_context.getD [])
    let explanation := generate_explanation env executable business_context
    pure (create_decision scenario executable analysis explanation business_context)

/-- `BusinessRuleAgent.analyze_scenario`: the whole pipeline under
`try/except Exception`, every escaped exception converted into the terminal
error decision.  Total by construction: this is the never-throws contract. -/
def analyze_scenario (env : AgentEnv) (scenario : String) (business_context : Option Dict)
    (domain_hint category_hint : Option String) : AgentDecision :=
  match analyze_scenarioE env scenario business_context domain_hint category_hint with
  | .ok decision => decision
  | .error e => create_error_decision scenario e

/-! ## `src/api/services.py` — `AgenticSystemService` -/

/-- One entry of the `results` list of `get_execution_summary`
(`duration`, a wall-clock difference, omitted). -/
structure ResultSummary where
  rule_id : String
  rule_name : String
  status : String
  output : Dict
  error : Option JValue

/-- The execution summary dict (`execution_time`, a wall-clock difference,
omitted; `message` only appears in the synthesized skipped summary). -/
structure Summary where
  plan_id : String
  scenario : String
  overall_status : String
  total_rules : Nat
  successful_rules : Nat
  failed_rules : Nat
  results : List ResultSummary
  message : Option String

/-- `BusinessRuleExecutionEngine.get_execution_summary`: a pure projection of a
plan. -/
def get_execution_summary (plan : ExecutionPlan) : Summary :=
  { plan_id := plan.plan_id,
    scenario := plan.scenario,
    overall_status := plan.overall_status.value,
    total_rules := plan.rules.length,
    successful_rules :=
      (plan.execution_results.filter (fun r => r.status == ExecutionStatus.completed)).length,
    failed_rules :=
      (plan.execution_results.filter (fun r => r.status == ExecutionStatus.failed)).length,
    results := plan.execution_results.map (fun r =>
      { rule_id := r.rule_id, rule_name := r.rule_name, status := r.status.value,
        output := r.output, error := r.error_message }),
    message := none }

/-- Projection of an agent rule dict to the keys the execution engine reads. -/
def FullRule.toEngineRule (r : FullRule) : EngineRule :=
  { id := r.id, name := r.name, action := r.action,
    parameters := r.parameters, priority := r.priority }

/-- `AgenticSystemService.execute_rules`: create a plan, execute it, summarize. -/
def execute_rules (eng : Engine) (now scenario : String) (rules : List FullRule)
    (context : Dict) : Summary × Engine :=
  let created := create_execution_plan eng now scenario
    (rules.map FullRule.toEngineRule) context
  let executed := execute_plan created.2 created.1
  (get_execution_summary executed.1, executed.2)

/-- The synthesized summary returned by `analyze_and_execute` when the analysis
found no applicable rules. -/
def skippedSummary (scenario : String) : Summary :=
  { plan_id := "no_execution",
    scenario := scenario,
    overall_status := "skipped",
    total_rules := 0,
    successful_rules := 0,
    failed_rules := 0,
    results := [],
    message := some "No applicable rules found" }

/-- `AgenticSystemService.analyze_and_execute`: analyze, then execute the
decision rules iff `analysis["applicable_rules"]` is truthy (non-empty),
else synthesize the skipped summary; the engine state is threaded through. -/
def analyze_and_execute (env : AgentEnv) (eng : Engine) (now scenario : String)
    (context : Option Dict) (domain_hint category_hint : Option String) :
    (AgentDecision × Summary) × Engine :=
  let analysis := analyze_scenario env scenario context domain_hint category_hint
  if analysis.applicable_rules.isEmpty then
    ((analysis, skippedSummary scenario), eng)
  else
    let executed := execute_rules eng now scenario analysis.applicable_rules
      (context.getD [])
    ((analysis, executed.1), executed.2)

/-! ## Concrete instances used by the counterexamples and witnesses below -/

/-- Decimal decoding of a digit string (used to invert `Nat.repr`). -/
def decDigits (l : List Char) : Nat :=
  l.foldl (fun a c => 10 * a + (c.toNat - 48)) 0

/-- An engine over the default executor, with fixed clock readings. -/
def defaultEngine : Engine :=
  mkEngine (defaultActionExecutor "t" "tb")

/-- A plan with two rules sharing the id `r`: a critical one whose action
succeeds and a non-critical one whose action name is unregistered (so its
result is FAILED). -/
def c1Plan : ExecutionPlan :=
  { plan_id := "p1", scenario := "s",
    rules :=
      [{ id := "r", name := "critical ok", action := "instant_approve",
         parameters := [], priority := 3 },
       { id := "r", name := "minor fails", action := "fly_to_moon",
         parameters := [], priority := 1 }],
    context := [], execution_results := [], overall_status := .pending }

/-- An executor whose dispatch always raises. -/
def crashingExecutor : ActionExecutor :=
  { validate_parameters := fun _ _ => .ok true,
    execute := fun _ _ _ => .error "boom" }

/-- A one-rule plan for exercising the crash path. -/
def c9Plan : ExecutionPlan :=
  { plan_id := "p9", scenario := "s",
    rules := [{ id := "r1", name := "rule one", action := "whatever",
                parameters := [], priority := 1 }],
    context := [], execution_results := [], overall_status := .pending }

/-- A retrieval hit used by the agent environments below. -/
def srStub : SearchResult :=
  { rule_id := "r1", score := 9 / 10, content := "text",
    metadata := { name := "rule one", description := "d", domain := "finance",
                  category := "cat", condition := "cond",
                  action := "instant_approve", priority := 1, parameters := [] } }

/-- The catalog rule behind `srStub`. -/
def bizRule : BusinessRule :=
  { id := "r1", name := "rule one", description := "d", domain := "finance",
    category := "cat", condition := "cond", action := "instant_approve",
    priority := 1, parameters := [], metadata := [] }

/-- An environment whose analysis payload has an applicable rule entry without a
`rule_id` key, so the pipeline raises a `KeyError` internally.  The threshold is
the integer rational `1` (any value at most the reported confidence gives the
same path; integer rationals keep kernel evaluation possible). -/
def envC2 : AgentEnv :=
  { confidence_threshold := 1,
    query_rules := fun _ _ _ _ _ => [srStub],
    llm_analyze := fun _ _ _ => .ok
      { applicable_rules := some
          [{ rule_id := none, confidence := some 1, reasoning := some "because" }],
        overall_assessment := none, recommended_actions := none },
    get_rule_by_id := fun _ => none,
    llm_reason := fun _ _ => { executable_rules := none },
    llm_explain := fun _ _ _ => "explanation" }

/-- An environment whose analysis payload reports confidence `2.0` for the
retrieved rule (nothing in the source validates or clamps this number). -/
def envC6 : AgentEnv :=
  { confidence_threshold := 1,
    query_rules := fun _ _ _ _ _ => [srStub],
    llm_analyze := fun _ _ _ => .ok
      { applicable_rules := some
          [{ rule_id := some "r1", confidence := some 2, reasoning := none }],
        overall_assessment := none, recommended_actions := none },
    get_rule_by_id := fun _ => some bizRule,
    llm_reason := fun _ _ =>
      { executable_rules := some
          [{ rule_id := some "r1", execution_order := some 0,
             condition_met := some true, expected_outcome := some "done" }] },
    llm_explain := fun _ _ _ => "expl" }

/-- The same environment with the in-range confidence `1.0`. -/
def envC6good : AgentEnv :=
  { envC6 with
    llm_analyze := fun _ _ _ => .ok
      { applicable_rules := some
          [{ rule_id := some "r1", confidence := some 1, reasoning := none }],
        overall_assessment := none, recommended_actions := none } }

/-- The single applicable rule the pipeline produces under `envC6`. -/
def ruleC6 : FullRule :=
  { id := "r1", name := "rule one", description := "d", condition := "cond",
    action := "instant_approve", priority := 1, parameters := [], confidence := 2,
    reasoning := "", execution_order := some 0, expected_outcome := some "done" }

/-- The single applicable rule the pipeline produces under `envC6good`. -/
def ruleC6good : FullRule :=
  { ruleC6 with confidence := 1 }

/-- Resolved rule with id `a`, in retrieval position 0. -/
def frA : FullRule :=
  { id := "a", name := "A", description := "", condition := "", action := "x",
    priority := 1, parameters := [], confidence := 1, reasoning := "",
    execution_order := none, expected_outcome := none }

/-- Resolved rule with id `b`, in retrieval position 1. -/
def frB : FullRule :=
  { frA with id := "b", name := "B" }

/-- Reasoning verdict for rule `a`: condition met, order 0. -/
def erA : ExecRuleRef :=
  { rule_id := some "a", execution_order := some 0, condition_met := some true,
    expected_outcome := none }

/-- Reasoning verdict for rule `b`: condition met, order 0. -/
def erB : ExecRuleRef :=
  { erA with rule_id := some "b" }

/-! ## Helper lemmas -/

/-- One `execute_plan` call appends exactly one plan to the history. -/
theorem execute_plan_history (e : Engine) (p : ExecutionPlan) :
    (execute_plan e p).2.execution_history =
      e.execution_history ++ [(execute_plan e p).1] := rfl

/-- History length after a sequence of `execute_plan` calls. -/
theorem runPlans_history_length (plans : List ExecutionPlan) (e : Engine) :
    (runPlans e plans).execution_history.length =
      e.execution_history.length + plans.length := by
  induction plans generalizing e with
  | nil => simp [runPlans]
  | cons p ps ih =>
      show (runPlans (execute_plan e p).2 ps).execution_history.length = _
      rw [ih]
      simp [execute_plan]
      omega

/-- Folding the decimal decoder from an arbitrary accumulator. -/
theorem decDigits_from (l : List Char) : ∀ a : Nat,
    l.foldl (fun x c => 10 * x + (c.toNat - 48)) a = a * 10 ^ l.length + decDigits l := by
  induction l with
  | nil => intro a; simp [decDigits]
  | cons c cs ih =>
      intro a
      show cs.foldl _ (10 * a + (c.toNat - 48)) = _
      rw [ih]
      have h2 : decDigits (c :: cs) = (10 * 0 + (c.toNat - 48)) * 10 ^ cs.length + decDigits cs := by
        show cs.foldl _ (10 * 0 + (c.toNat - 48)) = _
        rw [ih]
      rw [h2]
      simp only [List.length_cons, pow_succ]
      ring

/-- Value and digit-ness of `Nat.digitChar` below 10. -/
theorem digitChar_val : ∀ m : Nat, m < 10 →
    (Nat.digitChar m).toNat - 48 = m ∧ (Nat.digitChar m).isDigit = true := by decide

/-- Decoding inverts `Nat.toDigitsCore` (with enough fuel). -/
theorem toDigitsCore_decode : ∀ (f n : Nat) (acc : List Char), n < f →
    decDigits (Nat.toDigitsCore 10 f n acc) = n * 10 ^ acc.length + decDigits acc := by
  intro f
  induction f with
  | zero => intro n acc h; exact absurd h (Nat.not_lt_zero n)
  | succ f ih =>
      intro n acc h
      rw [Nat.toDigitsCore]
      by_cases h0 : n / 10 = 0
      · have hlt10 : n < 10 := by
          rcases Nat.lt_or_ge n 10 with h10 | h10
          · exact h10
          · exact absurd h0 (by
              have : 1 ≤ n / 10 := (Nat.le_div_iff_mul_le (by norm_num)).mpr (by omega)
              omega)
        have hmod : n % 10 = n := Nat.mod_eq_of_lt hlt10
        simp only [h0, if_pos]
        show decDigits ((n % 10).digitChar :: acc) = n * 10 ^ acc.length + decDigits acc
        show acc.foldl _ (10 * 0 + ((n % 10).digitChar.toNat - 48)) = _
        rw [decDigits_from, (digitChar_val (n % 10) (Nat.mod_lt n (by norm_num))).1, hmod]
        ring
      · have hnpos : 0 < n := by
          rcases Nat.eq_zero_or_pos n with rfl | hp
          · exact absurd (by norm_num) h0
          · exact hp
        have hlt : n / 10 < f := by
          have hdn : n / 10 < n := Nat.div_lt_self hnpos (by norm_num)
          omega
        simp only [h0, if_neg, ite_false]
        rw [ih (n / 10) ((n % 10).digitChar :: acc) hlt]
        have hdd : decDigits ((n % 10).digitChar :: acc) =
            (n % 10) * 10 ^ acc.length + decDigits acc := by
          show acc.foldl _ (10 * 0 + ((n % 10).digitChar.toNat - 48)) = _
          rw [decDigits_from, (digitChar_val (n % 10) (Nat.mod_lt n (by norm_num))).1]
          ring
        rw [hdd]
        have hsplit : 10 * (n / 10) + n % 10 = n := Nat.div_add_mod n 10
        calc n / 10 * 10 ^ ((n % 10).digitChar :: acc).length +
              ((n % 10) * 10 ^ acc.length + decDigits acc)
            = (10 * (n / 10) + n % 10) * 10 ^ acc.length + decDigits acc := by
              simp [List.length_cons, pow_succ]; ring
          _ = n * 10 ^ acc.length + decDigits acc := by rw [hsplit]

/-- Decoding the decimal representation of `n` gives back `n`. -/
theorem repr_data_decode (n : Nat) : decDigits (Nat.repr n).data = n := by
  show decDigits (Nat.toDigitsCore 10 (n + 1) n []) = n
  rw [toDigitsCore_decode (n + 1) n [] (Nat.lt_succ_self n)]
  simp [decDigits]

/-- Decimal representations of distinct naturals differ. -/
theorem nat_repr_inj {m n : Nat} (h : Nat.repr m = Nat.repr n) : m = n := by
  have h2 := congrArg (fun s => decDigits s.data) h
  simpa [repr_data_decode] using h2

/-- Every character produced by `Nat.toDigitsCore` over digit-only accumulators
is a digit. -/
theorem toDigitsCore_digit : ∀ (f n : Nat) (acc : List Char),
    (∀ c ∈ acc, c.isDigit = true) →
    ∀ c ∈ Nat.toDigitsCore 10 f n acc, c.isDigit = true := by
  intro f
  induction f with
  | zero =>
      intro n acc hacc
      rw [Nat.toDigitsCore]
      exact hacc
  | succ f ih =>
      intro n acc hacc
      rw [Nat.toDigitsCore]
      have hcons : ∀ c ∈ (n % 10).digitChar :: acc, c.isDigit = true := by
        intro c hc
        rcases List.mem_cons.mp hc with rfl | hmem
        · exact (digitChar_val (n % 10) (Nat.mod_lt n (by norm_num))).2
        · exact hacc c hmem
      by_cases h0 : n / 10 = 0
      · simp only [h0, if_pos]
        exact hcons
      · simp only [h0, if_neg, ite_false]
        exact ih (n / 10) ((n % 10).digitChar :: acc) hcons

/-- The decimal representation of a natural contains no underscore. -/
theorem repr_no_underscore (n : Nat) : ('_' : Char) ∉ (Nat.repr n).data := by
  intro hmem
  have hd : ('_' : Char).isDigit = true :=
    toDigitsCore_digit (n + 1) n [] (by intro c hc; cases hc) '_' hmem
  exact absurd hd (by decide)

/-- Splitting a char list at a separator absent from both suffixes is unique. -/
theorem append_sep_inj : ∀ (a c : List Char) {b d : List Char},
    ('_' : Char) ∉ b → ('_' : Char) ∉ d →
    a ++ '_' :: b = c ++ '_' :: d → a = c ∧ b = d := by
  intro a
  induction a with
  | nil =>
      intro c b d hb hd h
      cases c with
      | nil =>
          simp only [List.nil_append, List.cons.injEq] at h
          exact ⟨rfl, h.2⟩
      | cons x xs =>
          exfalso
          simp only [List.nil_append, List.cons_append, List.cons.injEq] at h
          exact hb (h.2 ▸ List.mem_append_right xs (List.mem_cons_self '_' d))
  | cons x xs ih =>
      intro c b d hb hd h
      cases c with
      | nil =>
          exfalso
          simp only [List.nil_append, List.cons_append, List.cons.injEq] at h
          exact hd (h.2 ▸ List.mem_append_right xs (List.mem_cons_self '_' b))
      | cons y ys =>
          simp only [List.cons_append, List.cons.injEq] at h
          obtain ⟨hxy, h2⟩ := h
          obtain ⟨h3, h4⟩ := ih ys hb hd h2
          exact ⟨by rw [hxy, h3], h4⟩

/-- Two generated plan ids coincide exactly when both the timestamp string and
the history length coincide. -/
theorem mkPlanId_inj (now now2 : String) (n n2 : Nat) :
    mkPlanId now n = mkPlanId now2 n2 ↔ (now = now2 ∧ n = n2) := by
  constructor
  · intro h
    have hdata := congrArg String.data h
    simp only [mkPlanId, String.data_append] at hdata
    simp only [List.append_assoc, List.singleton_append] at hdata
    have h2 := List.append_cancel_left hdata
    obtain ⟨hnow, hrepr⟩ :=
      append_sep_inj now.data now2.data (repr_no_underscore n) (repr_no_underscore n2) h2
    exact ⟨String.ext hnow, nat_repr_inj (String.ext hrepr)⟩
  · rintro ⟨rfl, rfl⟩
    rfl

/-! ## Claim theorems -/

/-- C4 (counterexample): the claim that the execution history is bounded is
false — no bound `B` caps the history length over all call sequences, since
each `execute_plan` call appends one plan unconditionally. -/
theorem c4_counterexample :
    ¬ ∃ B : Nat, ∀ (ex : ActionExecutor) (plans : List ExecutionPlan),
        (runPlans (mkEngine ex) plans).execution_history.length ≤ B := by
  rintro ⟨B, hB⟩
  have h := hB crashingExecutor (List.replicate (B + 1) c9Plan)
  rw [runPlans_history_length] at h
  simp [mkEngine] at h

/-- C4 (amended): the history is append-only and unbounded — after any sequence
of `execute_plan` calls on a fresh engine its length equals the number of calls,
and each call appends exactly the finished plan. -/
theorem c4_history_grows_per_call (ex : ActionExecutor) (plans : List ExecutionPlan)
    (e : Engine) (p : ExecutionPlan) :
    (runPlans (mkEngine ex) plans).execution_history.length = plans.length ∧
    (execute_plan e p).2.execution_history =
      e.execution_history ++ [(execute_plan e p).1] := by
  refine ⟨?_, rfl⟩
  rw [runPlans_history_length]
  simp [mkEngine]

/-- C5 (counterexample): two plans created by the same engine in the same
strftime second (no execution in between) receive the SAME `plan_id`, so
plan ids are not unique. -/
theorem c5_counterexample :
    ((create_execution_plan defaultEngine "20250101_120000" "scenario one" [] []).1.plan_id =
      (create_execution_plan defaultEngine "20250101_120000" "scenario two" [] []).1.plan_id) ∧
    (create_execution_plan defaultEngine "20250101_120000" "scenario one" [] []).1 ≠
      (create_execution_plan defaultEngine "20250101_120000" "scenario two" [] []).1 := by
  refine ⟨rfl, fun h => ?_⟩
  exact absurd (congrArg ExecutionPlan.scenario h) (by decide)

/-- C5 (amended): `create_execution_plan` is pure construction — the engine
state is unchanged — and its `plan_id` is exactly
`plan_<timestamp>_<history length>`; two created plans share a `plan_id` iff
their creation timestamps and history lengths both coincide (so ids are fresh
whenever the clock second or the history length differs, but collide for two
creations in the same second with no execution in between). -/
theorem c5_create_plan_pure_and_plan_id (e e2 : Engine) (now now2 scenario scenario2 : String)
    (rules rules2 : List EngineRule) (context context2 : Dict) :
    (create_execution_plan e now scenario rules context).2 = e ∧
    (create_execution_plan e now scenario rules context).1.plan_id =
      mkPlanId now e.execution_history.length ∧
    ((create_execution_plan e now scenario rules context).1.plan_id =
        (create_execution_plan e2 now2 scenario2 rules2 context2).1.plan_id ↔
      (now = now2 ∧ e.execution_history.length = e2.execution_history.length)) :=
  ⟨rfl, rfl, mkPlanId_inj now now2 e.execution_history.length e2.execution_history.length⟩

/-- C7: an action name not present in the default registry yields the
unsupported-action dict — `success: false`, error `Unsupported action: <name>`
and the supported-name list — without raising. -/
theorem c7_unsupported_action (now tb action : String) (parameters context : Dict)
    (h : action ∉ supportedActionNames now) :
    defaultExecute now tb action parameters context =
      [("success", .bool false),
       ("error", .str ("Unsupported action: " ++ action)),
       ("supported_actions", .arr ((supportedActionNames now).map .str))] := by
  have hfind : (supported_actions now).find? (fun p => p.1 == action) = none := by
    rw [List.find?_eq_none]
    intro p hp hbeq
    exact h (by
      unfold supportedActionNames
      exact List.mem_map.mpr ⟨p, hp, beq_iff_eq.mp hbeq⟩)
  unfold defaultExecute
  rw [hfind]
  rfl

/-- C7 (witness): the unregistered name `fly_to_moon`. -/
theorem c7_witness :
    ("fly_to_moon" ∉ supportedActionNames "t") ∧
    defaultExecute "t" "tb" "fly_to_moon" [] [] =
      [("success", .bool false),
       ("error", .str ("Unsupported action: " ++ "fly_to_moon")),
       ("supported_actions", .arr ((supportedActionNames "t").map .str))] :=
  ⟨by decide, c7_unsupported_action "t" "tb" "fly_to_moon" [] [] (by decide)⟩

/-- C10: `DefaultActionExecutor.execute` is total — as an `ActionExecutor` it
always returns `Except.ok` of a result dict, never an exception — and whenever
the registered handler for the action raises, the result is the conversion dict
`success: false` with message `Error executing <action>: <exception text>`. -/
theorem c10_default_executor_total (now tb action : String) (parameters context : Dict) :
    (∃ d, (defaultActionExecutor now tb).execute action parameters context = Except.ok d) ∧
    (∀ handler,
      ((supported_actions now).find? (fun p => p.1 == action)).map (fun p => p.2) =
        some handler →
      ∀ e, handler parameters context = Except.error e →
        defaultExecute now tb action parameters context =
          [("success", .bool false),
           ("error", .str ("Error executing " ++ action ++ ": " ++ e)),
           ("traceback", .str tb)]) := by
  refine ⟨⟨_, rfl⟩, fun handler hfind e herr => ?_⟩
  unfold defaultExecute
  simp only [hfind, herr]

/-- C10 (witness): `increase_reorder_quantity` on a context whose base quantity
is `None` raises a `TypeError` inside the handler, and the executor converts it. -/
theorem c10_witness :
    (((supported_actions "t").find? (fun p => p.1 == "increase_reorder_quantity")).map
        (fun p => p.2) = some (increase_reorder_quantity "t")) ∧
    (increase_reorder_quantity "t" [] [("normal_reorder_quantity", JValue.null)] =
      Except.error "TypeError: unsupported operand type(s) for *") ∧
    defaultExecute "t" "tb" "increase_reorder_quantity" [] [("normal_reorder_quantity", JValue.null)] =
      [("success", .bool false),
       ("error", .str ("Error executing " ++ "increase_reorder_quantity" ++ ": " ++
         "TypeError: unsupported operand type(s) for *")),
       ("traceback", .str "tb")] :=
  ⟨rfl, rfl,
   (c10_default_executor_total "t" "tb" "increase_reorder_quantity" []
     [("normal_reorder_quantity", JValue.null)]).2 _ rfl _ rfl⟩

/-- Bridge between the boolean critical test and its propositional form. -/
theorem criticalFor_iff (rules : List EngineRule) (r : ExecutionResult) :
    criticalFor rules r = true ↔ ∃ ru ∈ rules, ru.id = r.rule_id ∧ 3 ≤ ru.priority := by
  simp [criticalFor, List.any_eq_true, Bool.and_eq_true, beq_iff_eq, decide_eq_true_iff]

/-- The aggregate is FAILED exactly when a FAILED result id-matches a critical
rule. -/
theorem aggregateStatus_failed_iff (rules : List EngineRule) (results : List ExecutionResult) :
    aggregateStatus rules results = ExecutionStatus.failed ↔
      ∃ r ∈ results, r.status = ExecutionStatus.failed ∧ criticalFor rules r = true := by
  simp only [aggregateStatus]
  by_cases hany :
      (results.filter (fun r => r.status == ExecutionStatus.failed)).any (criticalFor rules) = true
  · obtain ⟨r, hrmem, hcrit⟩ := List.any_eq_true.mp hany
    have hne : (results.filter (fun r => r.status == ExecutionStatus.failed)).isEmpty = false := by
      cases h : (results.filter (fun r => r.status == ExecutionStatus.failed)).isEmpty
      · rfl
      · rw [List.isEmpty_iff] at h
        rw [h] at hrmem
        cases hrmem
    simp only [hne, Bool.false_eq_true, if_false, hany, if_true]
    constructor
    · intro _
      obtain ⟨hr, hfail⟩ := List.mem_filter.mp hrmem
      exact ⟨r, hr, beq_iff_eq.mp hfail, hcrit⟩
    · intro _
      trivial
  · have hres :
        (if (results.filter (fun r => r.status == ExecutionStatus.failed)).isEmpty then
            ExecutionStatus.completed
          else if (results.filter (fun r => r.status == ExecutionStatus.failed)).any
              (criticalFor rules) then ExecutionStatus.failed
          else ExecutionStatus.completed) = ExecutionStatus.completed := by
      by_cases hempty : (results.filter (fun r => r.status == ExecutionStatus.failed)).isEmpty = true
      · simp [hempty]
      · simp [hempty, hany]
    rw [hres]
    constructor
    · intro h
      exact absurd h (by decide)
    · rintro ⟨r, hr, hfail, hcrit⟩
      exact absurd
        (List.any_eq_true.mpr ⟨r, List.mem_filter.mpr ⟨hr, by simp [hfail]⟩, hcrit⟩) hany

/-- The aggregate takes only the two terminal values FAILED and COMPLETED. -/
theorem aggregateStatus_cases (rules : List EngineRule) (results : List ExecutionResult) :
    aggregateStatus rules results = ExecutionStatus.failed ∨
      aggregateStatus rules results = ExecutionStatus.completed := by
  simp only [aggregateStatus]
  by_cases h1 : (results.filter (fun r => r.status == ExecutionStatus.failed)).isEmpty = true
  · right
    simp [h1]
  · by_cases h2 :
        (results.filter (fun r => r.status == ExecutionStatus.failed)).any (criticalFor rules) = true
    · left
      simp [h1, h2]
    · right
      simp [h1, h2]

/-- C1 (counterexample): with two rules sharing id `r` — priorities 3 and 1,
where only the priority-1 rule's action fails — the sole FAILED result belongs
to the priority-1 rule, so the claim predicts COMPLETED; the code id-matches the
result against the sibling priority-3 rule and returns FAILED. -/
theorem c1_counterexample :
    ((execute_plan defaultEngine c1Plan).1.execution_results.map (fun r => r.status) =
      [ExecutionStatus.completed, ExecutionStatus.failed]) ∧
    ((execute_plan defaultEngine c1Plan).1.execution_results.map (fun r => r.rule_id) =
      ["r", "r"]) ∧
    (c1Plan.rules.map (fun ru => (ru.id, ru.priority)) = [("r", 3), ("r", 1)]) ∧
    (execute_plan defaultEngine c1Plan).1.overall_status = ExecutionStatus.failed := by
  exact ⟨rfl, rfl, rfl, rfl⟩

/-- C1 (amended): after `execute_plan` runs all rules, `overall_status` is
FAILED iff some FAILED result has a `rule_id` that matches some plan rule with
`priority >= 3` (the source resolves which rule a result belongs to by id
matching, which coincides with true ownership only when rule ids are distinct);
otherwise the status is COMPLETED. -/
theorem c1_overall_status_iff (e : Engine) (plan : ExecutionPlan) :
    ((execute_plan e plan).1.overall_status = ExecutionStatus.failed ↔
      ∃ r ∈ (execute_plan e plan).1.execution_results,
        r.status = ExecutionStatus.failed ∧
        ∃ ru ∈ plan.rules, ru.id = r.rule_id ∧ 3 ≤ ru.priority) ∧
    ((execute_plan e plan).1.overall_status = ExecutionStatus.failed ∨
      (execute_plan e plan).1.overall_status = ExecutionStatus.completed) := by
  have hov : (execute_plan e plan).1.overall_status =
      aggregateStatus plan.rules (execute_plan e plan).1.execution_results := rfl
  constructor
  · rw [hov, aggregateStatus_failed_iff]
    simp only [criticalFor_iff]
  · rw [hov]
    exact aggregateStatus_cases plan.rules (execute_plan e plan).1.execution_results

/-- C9: a raise during one rule's dispatch is converted into a FAILED result
carrying the exception text as `error_message`, and every remaining rule still
runs (one result per rule, in order). -/
theorem c9_rule_crash_captured_continues (e : Engine) (plan : ExecutionPlan)
    (i : Nat) (rule : EngineRule) (msg : String)
    (hrule : plan.rules.get? i = some rule)
    (hval : e.action_executor.validate_parameters rule.action rule.parameters = .ok true)
    (hexec : e.action_executor.execute rule.action rule.parameters plan.context =
      .error msg) :
    (execute_plan e plan).1.execution_results.length =
      plan.execution_results.length + plan.rules.length ∧
    (execute_plan e plan).1.execution_results.get? (plan.execution_results.length + i) =
      some { rule_id := rule.id, rule_name := rule.name, status := .failed, output := [],
             error_message := some (.str msg),
             execution_logs :=
               ["Starting execution of rule " ++ rule.id ++ ": " ++ rule.name,
                "Exception during execution: " ++ msg] } := by
  have hres : (execute_plan e plan).1.execution_results =
      plan.execution_results ++
        plan.rules.map (fun r => execute_single_rule e.action_executor r plan.context) := rfl
  constructor
  · rw [hres]
    simp
  · rw [hres, List.get?_append_right (Nat.le_add_right _ _)]
    have hidx : plan.execution_results.length + i - plan.execution_results.length = i := by
      omega
    rw [hidx, List.get?_map, hrule]
    simp [execute_single_rule, hval, hexec]

/-- C9 (witness): a one-rule plan against an executor whose dispatch raises
`boom`. -/
theorem c9_witness :
    ((mkEngine crashingExecutor).action_executor.execute "whatever" [] [] =
      Except.error "boom") ∧
    ((execute_plan (mkEngine crashingExecutor) c9Plan).1.execution_results.length =
      c9Plan.execution_results.length + c9Plan.rules.length ∧
    (execute_plan (mkEngine crashingExecutor) c9Plan).1.execution_results.get?
        (c9Plan.execution_results.length + 0) =
      some { rule_id := "r1", rule_name := "rule one", status := .failed, output := [],
             error_message := some (.str "boom"),
             execution_logs :=
               ["Starting execution of rule " ++ "r1" ++ ": " ++ "rule one",
                "Exception during execution: " ++ "boom"] }) := by
  refine ⟨rfl, ?_⟩
  exact c9_rule_crash_captured_continues (mkEngine crashingExecutor) c9Plan 0
    { id := "r1", name := "rule one", action := "whatever", parameters := [], priority := 1 }
    "boom" rfl rfl rfl

/-- C8: `analyze_and_execute` is the composition of analyze and execute — the
decision is the one `analyze_scenario` returns; the rules are executed iff
`applicable_rules` is non-empty (the engine history grows by one exactly then,
and is untouched otherwise); an empty analysis yields the synthesized summary
with `overall_status = "skipped"` and zero total/successful/failed counts; a
non-empty analysis executes exactly the applicable rules (`total_rules` equals
their number). -/
theorem c8_analyze_and_execute_composition (env : AgentEnv) (eng : Engine)
    (now scenario : String) (context : Option Dict)
    (domain_hint category_hint : Option String) :
    ((analyze_and_execute env eng now scenario context domain_hint category_hint).1.1 =
      analyze_scenario env scenario context domain_hint category_hint) ∧
    ((analyze_and_execute env eng now scenario context domain_hint category_hint).1.2 =
      (if (analyze_scenario env scenario context domain_hint category_hint).applicable_rules.isEmpty
       then skippedSummary scenario
       else (execute_rules eng now scenario
         (analyze_scenario env scenario context domain_hint category_hint).applicable_rules
         (context.getD [])).1)) ∧
    ((analyze_and_execute env eng now scenario context domain_hint category_hint).2.execution_history.length =
      eng.execution_history.length +
        (if (analyze_scenario env scenario context domain_hint category_hint).applicable_rules.isEmpty
         then 0 else 1)) ∧
    ((analyze_and_execute env eng now scenario context domain_hint category_hint).1.2.total_rules =
      (if (analyze_scenario env scenario context domain_hint category_hint).applicable_rules.isEmpty
       then 0
       else (analyze_scenario env scenario context domain_hint category_hint).applicable_rules.length)) ∧
    (skippedSummary scenario).overall_status = "skipped" ∧
    (skippedSummary scenario).total_rules = 0 ∧
    (skippedSummary scenario).successful_rules = 0 ∧
    (skippedSummary scenario).failed_rules = 0 ∧
    (if (analyze_scenario env scenario context domain_hint category_hint).applicable_rules.isEmpty
     then (analyze_and_execute env eng now scenario context domain_hint category_hint).2 = eng
     else True) := by
  by_cases h : (analyze_scenario env scenario context domain_hint category_hint).applicable_rules.isEmpty
  · refine ⟨?_, ?_, ?_, ?_, rfl, rfl, rfl, rfl, ?_⟩ <;>
      simp [analyze_and_execute, h, skippedSummary]
  · refine ⟨?_, ?_, ?_, ?_, rfl, rfl, rfl, rfl, ?_⟩ <;>
      simp [analyze_and_execute, h, execute_rules, execute_plan, create_execution_plan,
            get_execution_summary]

/-- C2: `analyze_scenario` is total and never surfaces an exception — the
pipeline body's result is returned as-is when it succeeds, and any exception it
raises internally is converted into the terminal error decision, whose
`decision_outcome` begins with `Analysis failed` and whose confidence is 0. -/
theorem c2_analyze_scenario_never_raises (env : AgentEnv) (scenario : String)
    (business_context : Option Dict) (domain_hint category_hint : Option String) :
    (∀ d, analyze_scenarioE env scenario business_context domain_hint category_hint =
        Except.ok d →
      analyze_scenario env scenario business_context domain_hint category_hint = d) ∧
    (∀ e, analyze_scenarioE env scenario business_context domain_hint category_hint =
        Except.error e →
      analyze_scenario env scenario business_context domain_hint category_hint =
        create_error_decision scenario e ∧
      (∃ rest, (create_error_decision scenario e).decision_outcome =
        "Analysis failed" ++ rest) ∧
      (create_error_decision scenario e).confidence = 0) := by
  constructor
  · intro d h
    simp [analyze_scenario, h]
  · intro e h
    refine ⟨by simp [analyze_scenario, h], ⟨": " ++ e, ?_⟩, rfl⟩
    show "Analysis failed: " ++ e = "Analysis failed" ++ (": " ++ e)
    rw [← String.append_assoc]
    rfl

/-- C2 (witness): an environment whose analysis payload lacks a `rule_id` key
makes the pipeline raise a `KeyError`, which the wrapper converts. -/
theorem c2_witness :
    (analyze_scenarioE envC2 "s" none none none = Except.error keyErrorRuleId) ∧
    (analyze_scenario envC2 "s" none none none =
        create_error_decision "s" keyErrorRuleId ∧
      (∃ rest, (create_error_decision "s" keyErrorRuleId).decision_outcome =
        "Analysis failed" ++ rest) ∧
      (create_error_decision "s" keyErrorRuleId).confidence = 0) :=
  ⟨rfl, (c2_analyze_scenario_never_raises envC2 "s" none none none).2 keyErrorRuleId rfl⟩

/-- Arithmetic mean of the confidences of a rule list stays inside the unit
interval when every summand does. -/
theorem rule_mean_in_unit (l : List FullRule)
    (h : ∀ r ∈ l, 0 ≤ r.confidence ∧ r.confidence ≤ 1) :
    0 ≤ (if l.isEmpty then (0 : ℚ)
         else (l.map (fun r => r.confidence)).sum / (l.length : ℚ)) ∧
    (if l.isEmpty then (0 : ℚ)
     else (l.map (fun r => r.confidence)).sum / (l.length : ℚ)) ≤ 1 := by
  by_cases he : l.isEmpty
  · simp [he]
  · have hne : l ≠ [] := fun hnil => he (by simp [hnil])
    have hlen : 0 < (l.length : ℚ) := by
      have hp : 0 < l.length := List.length_pos.mpr hne
      exact_mod_cast hp
    have hsum0 : 0 ≤ (l.map (fun r => r.confidence)).sum :=
      List.sum_nonneg (by
        intro x hx
        obtain ⟨r, hr, rfl⟩ := List.mem_map.mp hx
        exact (h r hr).1)
    have hsum1 : (l.map (fun r => r.confidence)).sum ≤ (l.length : ℚ) := by
      have hb := List.sum_le_card_nsmul (l.map (fun r => r.confidence)) 1 (by
        intro x hx
        obtain ⟨r, hr, rfl⟩ := List.mem_map.mp hx
        exact (h r hr).2)
      simpa [nsmul_eq_mul, List.length_map] using hb
    constructor
    · simp only [he, if_false]
      exact div_nonneg hsum0 (le_of_lt hlen)
    · simp only [he, if_false]
      exact (div_le_one hlen).mpr hsum1

/-- Confidence of every decision `analyze_scenario` returns is the arithmetic
mean of the applicable rules' confidences, 0 when there are none. -/
theorem analyze_confidence_formula (env : AgentEnv) (scenario : String)
    (business_context : Option Dict) (domain_hint category_hint : Option String) :
    (analyze_scenario env scenario business_context domain_hint category_hint).confidence =
      (if (analyze_scenario env scenario business_context domain_hint category_hint).applicable_rules.isEmpty
       then (0 : ℚ)
       else ((analyze_scenario env scenario business_context domain_hint category_hint).applicable_rules.map
          (fun r => r.confidence)).sum /
        (((analyze_scenario env scenario business_context domain_hint category_hint).applicable_rules.length : ℚ))) := by
  unfold analyze_scenario
  cases hE : analyze_scenarioE env scenario business_context domain_hint category_hint with
  | error e => simp [create_error_decision]
  | ok d =>
      unfold analyze_scenarioE at hE
      by_cases hq : (query_relevant_rules env scenario domain_hint category_hint).isEmpty
      · simp only [hq, if_true] at hE
        have hd : d = create_no_rules_decision scenario := by
          cases hE
          rfl
        subst hd
        simp [create_no_rules_decision]
      · simp only [hq, Bool.false_eq_true, if_false] at hE
        cases hdet : determine_executable_rules env
            (analyze_with_llm env scenario
              (query_relevant_rules env scenario domain_hint category_hint) business_context)
            (business_context.getD []) with
        | error e2 =>
            rw [hdet] at hE
            cases hE
        | ok executable =>
            rw [hdet] at hE
            have hd : d = create_decision scenario executable
                (analyze_with_llm env scenario
                  (query_relevant_rules env scenario domain_hint category_hint) business_context)
                (generate_explanation env executable business_context) business_context := by
              cases hE
              rfl
            subst hd
            simp [create_decision]

/-- C6 (amended): the confidence of every decision is the arithmetic mean of
its applicable rules' confidences (0.0 when there are none), and it lies in
`[0, 1]` PROVIDED every applicable rule's reported confidence lies in `[0, 1]`
(the code does not validate or clamp the provider-reported numbers). -/
theorem c6_confidence_mean_bounded (env : AgentEnv) (scenario : String)
    (business_context : Option Dict) (domain_hint category_hint : Option String) :
    ((analyze_scenario env scenario business_context domain_hint category_hint).confidence =
      (if (analyze_scenario env scenario business_context domain_hint category_hint).applicable_rules.isEmpty
       then (0 : ℚ)
       else ((analyze_scenario env scenario business_context domain_hint category_hint).applicable_rules.map
          (fun r => r.confidence)).sum /
        (((analyze_scenario env scenario business_context domain_hint category_hint).applicable_rules.length : ℚ)))) ∧
    ((∀ r ∈ (analyze_scenario env scenario business_context domain_hint category_hint).applicable_rules,
        0 ≤ r.confidence ∧ r.confidence ≤ 1) →
      0 ≤ (analyze_scenario env scenario business_context domain_hint category_hint).confidence ∧
      (analyze_scenario env scenario business_context domain_hint category_hint).confidence ≤ 1) := by
  refine ⟨analyze_confidence_formula env scenario business_context domain_hint category_hint,
    fun h => ?_⟩
  rw [analyze_confidence_formula env scenario business_context domain_hint category_hint]
  exact rule_mean_in_unit _ h

/-- C6 (counterexample): an environment whose provider reports confidence `2.0`
for the single applicable rule produces a decision whose confidence is `2.0`,
outside `[0, 1]`. -/
theorem c6_counterexample :
    (1 : ℚ) < (analyze_scenario envC6 "s" none none none).confidence := by
  have happ : (analyze_scenario envC6 "s" none none none).applicable_rules = [ruleC6] := rfl
  rw [analyze_confidence_formula envC6 "s" none none none, happ]
  norm_num [ruleC6]

/-- C6 (witness): with an in-range reported confidence `0.8` the bound holds. -/
theorem c6_witness :
    (∀ r ∈ (analyze_scenario envC6good "s" none none none).applicable_rules,
      0 ≤ r.confidence ∧ r.confidence ≤ 1) ∧
    (0 ≤ (analyze_scenario envC6good "s" none none none).confidence ∧
      (analyze_scenario envC6good "s" none none none).confidence ≤ 1) := by
  have hb : ∀ r ∈ (analyze_scenario envC6good "s" none none none).applicable_rules,
      0 ≤ r.confidence ∧ r.confidence ≤ 1 := by
    have happ : (analyze_scenario envC6good "s" none none none).applicable_rules =
        [ruleC6good] := rfl
    rw [happ]
    intro r hr
    simp only [List.mem_singleton] at hr
    subst hr
    constructor <;> norm_num [ruleC6good, ruleC6]
  exact ⟨hb, (c6_confidence_mean_bounded envC6good "s" none none none).2 hb⟩

/-- Inserting into a list commutes with filtering on one key value: the
inserted element lands in front of the elements with its own key (the skipped
prefix has strictly smaller keys). -/
theorem filter_orderedInsert (k : Int) (x : FullRule) (l : List FullRule) :
    (List.orderedInsert ruleLe x l).filter (fun r => orderKey r == k) =
      if orderKey x == k then x :: l.filter (fun r => orderKey r == k)
      else l.filter (fun r => orderKey r == k) := by
  induction l with
  | nil =>
      by_cases hk : orderKey x == k <;> simp [List.orderedInsert, List.filter, hk]
  | cons y ys ih =>
      rw [List.orderedInsert]
      by_cases hxy : ruleLe x y
      · rw [if_pos hxy]
        by_cases hk : orderKey x == k <;> simp [List.filter_cons, hk]
      · rw [if_neg hxy]
        have hlt : orderKey y < orderKey x := not_le.mp hxy
        by_cases hk : orderKey x == k
        · have hky : (orderKey y == k) = false := by
            have hxk : orderKey x = k := beq_iff_eq.mp hk
            simp only [beq_eq_false_iff_ne, ne_eq]
            omega
          simp [List.filter_cons, hky, ih, hk]
        · simp [List.filter_cons, ih, hk]

/-- Insertion sort is stable: filtering on any single key value returns the
matching elements in their original order. -/
theorem filter_insertionSort (k : Int) (l : List FullRule) :
    (List.insertionSort ruleLe l).filter (fun r => orderKey r == k) =
      l.filter (fun r => orderKey r == k) := by
  induction l with
  | nil => rfl
  | cons x xs ih =>
      rw [List.insertionSort, filter_orderedInsert, ih]
      by_cases hk : orderKey x == k <;> simp [List.filter_cons, hk]

/-- Every pair retained by the merge loop has a truthy `condition_met`. -/
theorem collectKept_go_met (fullRules : List FullRule) :
    ∀ (execRules : List ExecRuleRef) (acc kept : List (String × ExecRuleRef)),
      List.foldlM (fun acc er =>
        if er.condition_met.getD false then
          match er.rule_id with
          | none => Except.error keyErrorRuleId
          | some rid =>
            match fullRules.find? (fun r => r.id == rid) with
            | some _ => pure (acc ++ [(rid, er)])
            | none => pure acc
        else pure acc) acc execRules = Except.ok kept →
      (∀ p ∈ acc, p.2.condition_met.getD false = true) →
      ∀ p ∈ kept, p.2.condition_met.getD false = true := by
  intro execRules
  induction execRules with
  | nil =>
      intro acc kept h hacc
      simp only [List.foldlM_nil] at h
      cases h
      exact hacc
  | cons er ers ih =>
      intro acc kept h hacc
      rw [List.foldlM_cons] at h
      by_cases hc : er.condition_met.getD false = true
      · simp only [hc, if_true] at h
        cases her : er.rule_id with
        | none =>
            simp only [her] at h
            exact Except.noConfusion (show (Except.error keyErrorRuleId :
              Except String (List (String × ExecRuleRef))) = Except.ok kept from h)
        | some rid =>
            simp only [her] at h
            cases hfind : fullRules.find? (fun r => r.id == rid) with
            | some fr =>
                simp only [hfind] at h
                refine ih (acc ++ [(rid, er)]) kept (by simpa [pure_bind] using h) ?_
                intro p hp
                rcases List.mem_append.mp hp with hp1 | hp2
                · exact hacc p hp1
                · have hpe : p = (rid, er) := by simpa using hp2
                  rw [hpe]
                  exact hc
            | none =>
                simp only [hfind] at h
                exact ih acc kept (by simpa [pure_bind] using h) hacc
      · have hcf : er.condition_met.getD false = false := by
          cases hcc : er.condition_met.getD false
          · rfl
          · exact absurd hcc hc
        simp only [hcf, if_false] at h
        exact ih acc kept (by simpa using h) hacc

/-- C3 (counterexample): with retrieval order `[a, b]` and reasoning output
`[b, a]`, both with `condition_met` true and equal `execution_order`, the code
returns `[b, a]` — ties preserve the REASONING-OUTPUT order — while the claim
(ties preserve retrieval order) demands `[a, b]`. -/
theorem c3_counterexample :
    ((merge_and_sort [frA, frB] [erB, erA]).map (fun l => l.map (fun r => r.id)) =
      Except.ok ["b", "a"]) ∧
    ((merge_and_sort_spec [frA, frB] [erB, erA]).map (fun l => l.map (fun r => r.id)) =
      Except.ok ["a", "b"]) ∧
    merge_and_sort [frA, frB] [erB, erA] ≠ merge_and_sort_spec [frA, frB] [erB, erA] := by
  refine ⟨rfl, rfl, fun h => ?_⟩
  have h2 : (Except.ok ["b", "a"] : Except String (List String)) = Except.ok ["a", "b"] := by
    calc (Except.ok ["b", "a"] : Except String (List String))
        = (merge_and_sort [frA, frB] [erB, erA]).map (fun l => l.map (fun r => r.id)) := rfl
      _ = (merge_and_sort_spec [frA, frB] [erB, erA]).map (fun l => l.map (fun r => r.id)) := by
          rw [h]
      _ = Except.ok ["a", "b"] := rfl
  injection h2 with h3
  exact absurd h3 (by decide)

/-- C3 (amended): when the merge loop completes without raising, every kept
entry has a truthy `condition_met` verdict (non-met rules are dropped), and the
returned list is the kept rules stably sorted by `execution_order` ascending —
with ties preserving the REASONING result's order (the order of
`executable_rules` in the provider payload), not retrieval order. -/
theorem c3_merge_stable_reasoning_order (fullRules : List FullRule)
    (execRules : List ExecRuleRef) (kept : List (String × ExecRuleRef))
    (hkept : collectKept execRules fullRules = Except.ok kept) :
    (merge_and_sort fullRules execRules =
      Except.ok (List.insertionSort ruleLe (finalRules fullRules kept))) ∧
    (∀ p ∈ kept, p.2.condition_met.getD false = true) ∧
    List.Sorted ruleLe (List.insertionSort ruleLe (finalRules fullRules kept)) ∧
    (∀ k : Int, (List.insertionSort ruleLe (finalRules fullRules kept)).filter
        (fun r => orderKey r == k) =
      (finalRules fullRules kept).filter (fun r => orderKey r == k)) := by
  refine ⟨?_, ?_, List.sorted_insertionSort ruleLe _, fun k => filter_insertionSort k _⟩
  · simp [merge_and_sort, hkept]
  · exact collectKept_go_met fullRules execRules [] kept hkept (by intro p hp; cases hp)

/-- C3 (witness): a single met rule goes through the merge. -/
theorem c3_witness :
    (collectKept [erA] [frA] = Except.ok [("a", erA)]) ∧
    (merge_and_sort [frA] [erA] =
      Except.ok (List.insertionSort ruleLe (finalRules [frA] [("a", erA)]))) :=
  ⟨rfl, (c3_merge_stable_reasoning_order [frA] [erA] [("a", erA)] rfl).1⟩
